import Mathlib

/-!
A shallow embedding of the TOC-filtering core of `pg_tools`
(`src/pg_tools/pg_tools.py`, class `PGRestore`): the catalog rewriting loop of
`get_catalog` and the trigger-dependency extractor `get_trigger_funcs`.

Python strings are modelled as Lean `String`, with the Python string
primitives (`split`, `strip`, `find`, slicing) re-implemented by structural
recursion over the character list `String.data`, so that every definition
evaluates inside the kernel.  Python lists are `List`, and Python dicts are
association lists ordered by insertion (matching CPython's insertion-ordered
dicts).  Regular-expression patterns (`re.search`) are modelled by the match
predicates they induce, `String → Bool`.  Fallible steps (`KeyError`,
`IndexError`, `OSError` from `io.StringIO.seek`) are modelled with
`Except String`.
-/

namespace PGTools

/-- One step of whitespace-run splitting, folded from the right over the
characters: a whitespace character closes the word accumulated to its right,
any other character extends it. -/
def pysplitStep (c : Char) (acc : List Char × List (List Char)) :
    List Char × List (List Char) :=
  if c.isWhitespace then
    if acc.1.isEmpty then ([], acc.2) else ([], acc.1 :: acc.2)
  else (c :: acc.1, acc.2)

/-- Python `s.split()` with no separator: split on runs of whitespace and
discard empty pieces. -/
def pysplit (s : String) : List String :=
  let r := s.data.foldr pysplitStep ([], [])
  (if r.1.isEmpty then r.2 else r.1 :: r.2).map String.mk

/-- Does `sep` occur as a contiguous sublist of `l`? -/
def occursC (sep : List Char) : List Char → Bool
  | [] => sep.isEmpty
  | c :: rest => sep.isPrefixOf (c :: rest) || occursC sep rest

/-- Python `s.find(pat) > -1`: does `pat` occur as a substring of `s`? -/
def containsSub (s pat : String) : Bool :=
  occursC pat.data s.data

/-- The characters strictly before the first occurrence of `sep` (all of `l`
when `sep` does not occur): Python `l[:l.find(sep)]` on a hit, and also the
value of `l.split(sep)[0]`. -/
def beforeFirstC (sep : List Char) : List Char → List Char
  | [] => []
  | c :: rest =>
    if sep.isPrefixOf (c :: rest) then []
    else c :: beforeFirstC sep rest

/-- The characters strictly after the first occurrence of `sep` (empty when
`sep` does not occur): Python `l[l.find(sep) + len(sep):]` on a hit. -/
def afterFirstC (sep : List Char) : List Char → List Char
  | [] => []
  | c :: rest =>
    if sep.isPrefixOf (c :: rest) then (c :: rest).drop sep.length
    else afterFirstC sep rest

/-- Python `s.strip()` restricted to a given character predicate: drop
matching characters from both ends. -/
def stripBy (p : Char → Bool) (l : List Char) : List Char :=
  ((l.dropWhile p).reverse.dropWhile p).reverse

/-- Python `s.strip()` (no arguments): strip whitespace from both ends. -/
def pystrip (s : String) : String :=
  String.mk (stripBy Char.isWhitespace s.data)

/-- Python `s.split(sep)` restricted to the single-character separator `'\n'`
(the `out.split("\n")` of both loops): empty pieces are kept. -/
def splitNl : List Char → List (List Char)
  | [] => [[]]
  | c :: rest =>
    if c = '\n' then [] :: splitNl rest
    else
      match splitNl rest with
      | [] => [[c]]
      | h :: t => (c :: h) :: t

/-- The lines of `out`, as Python `out.split("\n")` produces them. -/
def pylines (out : String) : List String :=
  (splitNl out.data).map String.mk

/-- Python `f.split(".")[0]`: the text before the first dot (all of `f` when
it has no dot). -/
def schemaPart (f : String) : String :=
  String.mk (beforeFirstC ['.'] f.data)

/-- The `PGRestore` fields consulted by `get_catalog`: `self.schemas`,
`self.schemas_nodata` and `self.relname_nodata` (each normalised to `[]` in
`__init__` via `x or []`).  A `relname_nodata` pattern is modelled as the
predicate `fun s => re.search pattern s is not None`. -/
structure Config where
  schemas : List String
  schemas_nodata : List String
  relname_nodata : List (String → Bool)

/-- The value held, after the set-up lines 302-313 of `get_catalog`, by the
three aliases `schemas`, `md_schemas` and `self.schemas`: starting from
`schemas = self.schemas`, the statement `md_schemas = schemas` binds the same
list object, `md_schemas += self.schemas_nodata` extends that object in
place, and `md_schemas.append("pg_catalog")` runs when the object is
non-empty.  (The `+=` is guarded by `if self.schemas_nodata:` in the source,
but extending by an empty list is the identity, so the value is the same.) -/
def effectiveSchemas (schemas schemas_nodata : List String) : List String :=
  let m := schemas ++ schemas_nodata
  if m = [] then [] else m ++ ["pg_catalog"]

/-- The recognition test of `get_catalog` lines 324-341: the line contains at
least one of the sixteen kind-marker substrings (substring search over the
whole line, exactly as `line.find(...) > -1`). -/
def recognizedKind (line : String) : Bool :=
  containsSub line "SCHEMA" || containsSub line "ACL" ||
  containsSub line "TABLE" || containsSub line "TYPE" ||
  containsSub line "FUNCTION" || containsSub line "OPERATOR" ||
  containsSub line "CAST" || containsSub line "TABLE DATA" ||
  containsSub line "SEQUENCE" || containsSub line "VIEW" ||
  containsSub line "COMMENT" || containsSub line "DEFAULT" ||
  containsSub line "INDEX" || containsSub line "TRIGGER" ||
  containsSub line "DOMAIN" || containsSub line "CONSTRAINT"

/-- The classification chain of `get_catalog` lines 345-375, computing
`schema` (and `table`) from the unpacked tokens `a, b, c, d`.  In the source
`table` is only bound in the `b == "DATA"` branch; every later read of
`table` is guarded by `a == "TABLE" and b == "DATA"`, which forces that
branch, so returning `""` elsewhere is value-equivalent. -/
def classify (a b c d : String) : String × String :=
  if a == "ACL" || a == "SCHEMA" then (if b == "-" then c else b, "")
  else if a == "COMMENT" then (if b == "-" && c == "SCHEMA" then d else "", "")
  else if b == "CLASS" then (c, "")
  else if b == "DATA" then (c, d)
  else if a == "SEQUENCE" then
    (if b == "OWNED" && c == "BY" then d
     else if b == "SET" then c else b, "")
  else if a == "FK" && b == "CONSTRAINT" then (c, "")
  else (b, "")

/-- The schema-to-trigger-to-procedures dictionary built by
`get_trigger_funcs` (`triggers[schema][trigger] = [f1, f2, ...]`). -/
abbrev TrigMap := List (String × List (String × List String))

/-- Rule 1 (line 378): `a == "ACL" and b == "-" and c not in schemas`.  The
local `schemas` aliases `md_schemas` (see `effectiveSchemas`), so membership
is tested against the effective set `eff`. -/
def rule_acl (eff : List String) (a b c : String) : Bool :=
  a == "ACL" && b == "-" && !(eff.contains c)

/-- Rule 3 (lines 386-394): TRIGGER dependency check.  Membership of the
procedure's schema qualifier is tested against the aliased `schemas`, i.e.
the effective set `eff`. -/
def rule_trigger (eff : List String) (trig : TrigMap) (a b c : String) : Bool :=
  a == "TRIGGER" &&
    (match (trig.lookup b).bind (fun m => m.lookup c) with
     | some fs => fs.any (fun f => !(eff.contains (schemaPart f)))
     | none => false)

/-- Rule 4 (lines 397-404): TABLE DATA section of a `schemas_nodata`
schema. -/
def rule_nodata (cfg : Config) (a b schema : String) : Bool :=
  a == "TABLE" && b == "DATA" && cfg.schemas_nodata.contains schema

/-- Rule 5 (lines 407-410): TABLE DATA of an explicitly excluded
(schema, table) pair. -/
def rule_tables (splitted : List (String × String)) (a b schema table : String) : Bool :=
  a == "TABLE" && b == "DATA" &&
    splitted.any (fun st => schema == st.1 && table == st.2)

/-- Rule 6 (lines 413-418): TABLE DATA whose qualified name matches one of
the `relname_nodata` patterns. -/
def rule_regex (cfg : Config) (a b schema table : String) : Bool :=
  a == "TABLE" && b == "DATA" &&
    cfg.relname_nodata.any (fun p => p (schema ++ "." ++ table))

/-- The `filter_out` flag computed for one line by `get_catalog` lines
322-423.  Each source rule is `if not filter_out and COND: filter_out =
True`, i.e. an or-accumulation of side-effect-free conditions, rendered here
as an or-chain.  `a, b, c, d = line.split()[3:7]` raises `ValueError` when
the line has fewer than seven whitespace tokens; the handler (lines 420-423)
leaves `filter_out` false. -/
def filter_out_line (cfg : Config) (splitted : List (String × String))
    (eff : List String) (trig : TrigMap) (line : String) : Bool :=
  if recognizedKind line then
    let toks := pysplit line
    if toks.length < 7 then false
    else
      let a := toks.getD 3 ""
      let b := toks.getD 4 ""
      let c := toks.getD 5 ""
      let d := toks.getD 6 ""
      let sc := classify a b c d
      rule_acl eff a b c ||
      !(eff.contains sc.1) ||
      rule_trigger eff trig a b c ||
      rule_nodata cfg a b sc.1 ||
      rule_tables splitted a b sc.1 sc.2 ||
      rule_regex cfg a b sc.1 sc.2
  else false

/-- What `get_catalog` writes to the `StringIO` buffer for one line of
`out.split("\n")` (lines 318-429): nothing for a whitespace-only line
(`line.strip() == ""` leads to `continue`), `";" + line + "\n"` when
`filter_out`, else `line + "\n"`. -/
def processLine (cfg : Config) (splitted : List (String × String))
    (eff : List String) (trig : TrigMap) (line : String) : String :=
  if pystrip line == "" then ""
  else if filter_out_line cfg splitted eff trig line then ";" ++ line ++ "\n"
  else line ++ "\n"

/-- Python `[(x.split(".")[0], x.split(".")[1]) for x in tables]` (line 298).
The source raises `IndexError` when a name has no dot (the caller contract is
`schema.table`); here the second component defaults to `""` in that dead
case. -/
def splitTables (tables : List String) : List (String × String) :=
  tables.map (fun x =>
    (String.mk (beforeFirstC ['.'] x.data), String.mk (beforeFirstC ['.'] (afterFirstC ['.'] x.data))))

/-- The full content of the `StringIO` buffer after the rewriting loop of
`get_catalog` (lines 318-429), before the trailing-character chop: the
per-line outputs concatenated in input order. -/
def get_catalog_text (cfg : Config) (tables : List String) (trig : TrigMap)
    (out : String) : String :=
  let splitted := splitTables tables
  let eff := effectiveSchemas cfg.schemas cfg.schemas_nodata
  String.join ((pylines out).map (processLine cfg splitted eff trig))

/-- CPython `io.StringIO.seek(offset, SEEK_CUR)`: the text-stream contract
only accepts a zero offset for cur-relative seeks and raises
`OSError("Can't do nonzero cur-relative seeks")` otherwise (verified against
CPython 3; `get_catalog` line 437 passes offset `-1`). -/
def stringio_seek_cur (pos : Nat) (offset : Int) : Except String Nat :=
  if offset = 0 then Except.ok pos
  else Except.error "Can't do nonzero cur-relative seeks"

/-- Insertion-ordered dict update, as CPython dicts behave: an existing key
is rebound in place, a new key is appended at the end. -/
def setA {β : Type} (xs : List (String × β)) (k : String) (v : β) :
    List (String × β) :=
  if (xs.lookup k).isSome then
    xs.map (fun p => if p.1 == k then (k, v) else p)
  else xs ++ [(k, v)]

/-- Python `s.strip("()")`: strip `(` and `)` characters from both ends. -/
def stripParens (s : String) : String :=
  String.mk (stripBy (fun ch => ch == '(' || ch == ')') s.data)

/-- The procedure-name extraction of `get_trigger_funcs` lines 514-518:
`start = line.find("EXECUTE PROCEDURE") + 17` and
`line[start : line.find("(", start)].strip()`.  When no `(` follows, `find`
returns `-1` and the slice `line[start:-1]` stops one character before the
end of the line.  Only evaluated when the keyword occurs in `line`. -/
def extractProcName (line : String) : String :=
  let tail := afterFirstC "EXECUTE PROCEDURE".data line.data
  if occursC ['('] tail then
    String.mk (stripBy Char.isWhitespace (beforeFirstC ['('] tail))
  else
    String.mk (stripBy Char.isWhitespace (tail.take (tail.length - 1)))

/-- The mutable scan context of `get_trigger_funcs` lines 486-489:
the dependency dict, the `{func: schema}` cache, and the current schema and
trigger. -/
structure TrigState where
  triggers : TrigMap
  triggers_funcs : List (String × String)
  current_schema : String
  current_trigger : Option String
  deriving DecidableEq, Repr

/-- One iteration of the `get_trigger_funcs` scan loop (lines 491-531) on a
single line.  Dict accesses that can raise `KeyError` in Python
(`triggers[current_schema]` at line 504 and lines 527-528) and the
`line.split()[2]` that can raise `IndexError` (line 510) are modelled with
`Except.error`. -/
def trig_step (st : TrigState) (line : String) : Except String TrigState :=
  if containsSub line "SET search_path = " then
    let cs := String.mk (beforeFirstC ", ".data ((line.data.drop 18).take ((line.data.drop 18).length - 1)))
    Except.ok { st with
      current_schema := cs,
      triggers := if (st.triggers.lookup cs).isSome then st.triggers
                  else st.triggers ++ [(cs, [])] }
  else
    match (if containsSub line "CREATE TRIGGER" then
             let ct := String.mk (beforeFirstC [' '] (stripBy Char.isWhitespace (line.data.drop 14)))
             match st.triggers.lookup st.current_schema with
             | none => Except.error ("KeyError: " ++ st.current_schema)
             | some m =>
               Except.ok { st with
                 current_trigger := some ct,
                 triggers := if (m.lookup ct).isSome then st.triggers
                             else setA st.triggers st.current_schema (m ++ [(ct, [])]) }
           else Except.ok st) with
    | Except.error e => Except.error e
    | Except.ok st1 =>
      match (if containsSub line "RETURNS \"trigger\"" then
               match (pysplit line).get? 2 with
               | none => Except.error "IndexError: list index out of range"
               | some tok =>
                 Except.ok { st1 with
                   triggers_funcs := setA st1.triggers_funcs (stripParens tok) st1.current_schema }
             else Except.ok st1) with
      | Except.error e => Except.error e
      | Except.ok st2 =>
        match st2.current_trigger with
        | none => Except.ok st2
        | some ct =>
          match (if containsSub line "EXECUTE PROCEDURE" then
                   let p := extractProcName line
                   let q := if containsSub p "." then p
                            else st2.current_schema ++ "." ++ p
                   match st2.triggers.lookup st2.current_schema with
                   | none => Except.error ("KeyError: " ++ st2.current_schema)
                   | some m =>
                     match m.lookup ct with
                     | none => Except.error ("KeyError: " ++ ct)
                     | some procs =>
                       Except.ok { st2 with
                         triggers := setA st2.triggers st2.current_schema
                           (setA m ct (if procs.contains q then procs else procs ++ [q])) }
                 else Except.ok st2) with
          | Except.error e => Except.error e
          | Except.ok st3 =>
            Except.ok (if containsSub line ";" then { st3 with current_trigger := none } else st3)

/-- `get_trigger_funcs` (lines 470-533) applied to the captured text of
`pg_restore -s`: scan the lines with initial state
`triggers = {}`, `triggers_funcs = {}`, `current_schema = "public"`,
`current_trigger = None`, and return the `triggers` dict. -/
def get_trigger_funcs (out : String) : Except String TrigMap := do
  let fin ← (pylines out).foldlM trig_step ⟨[], [], "public", none⟩
  pure fin.triggers

/-- `get_catalog` end to end (lines 258-451): build the dependency dict from
the schema-only dump text, rewrite the TOC listing text, then chop the last
character with `catalog.seek(-1, os.SEEK_CUR); catalog.truncate()`.  The
seek step follows the `io.StringIO` contract (`stringio_seek_cur`); when it
succeeds the buffer is truncated at the resulting position.  (With
`out_to_file=True` the source would additionally write `catalog.getvalue()`,
a `str`, to a file opened in binary mode, a `TypeError` in Python 3 — not
reached, and therefore not modelled, because the seek raises first.) -/
def get_catalog (cfg : Config) (tables : List String)
    (sqlOut tocOut : String) : Except String String := do
  let trig ← get_trigger_funcs sqlOut
  let text := get_catalog_text cfg tables trig tocOut
  let pos ← stringio_seek_cur text.length (-1)
  pure (String.mk (text.data.take pos))

/-- The value held by `self.schemas` after one call to `get_catalog`: the
set-up lines 302-313 mutate the field in place through the `md_schemas`
alias (`md_schemas = schemas` binds the same object as `self.schemas`, then
`+=` and `.append` mutate it), leaving `effectiveSchemas` in the field.
`self.schemas_nodata` and `self.relname_nodata` are only read. -/
def get_catalog_schemas_after (cfg : Config) : List String :=
  effectiveSchemas cfg.schemas cfg.schemas_nodata

/-! Theorems about the claims. -/

/-- Claim C1, counterexample: with `schemas` and `schemasNodata` both empty,
the claim says no schema-based filtering occurs and every entry passes the
schema-membership rule; on the code, the TABLE entry for `public.accounts`
is nevertheless commented out (its schema fails membership in the empty
effective set), so the claim as stated is false. -/
theorem c1_counterexample :
    (get_catalog_text ⟨[], [], []⟩ [] [] "10; 1259 16384 TABLE public accounts owner" =
      ";10; 1259 16384 TABLE public accounts owner\n") ∧
    ";10; 1259 16384 TABLE public accounts owner\n" ≠
      "10; 1259 16384 TABLE public accounts owner\n" :=
  ⟨rfl, by decide⟩

/-- Claim C1 as amended: for every non-blank recognized TOC line with at
least seven whitespace tokens, when none of the other rules (ACL, trigger
dependency, nodata, explicit tables, regex) fires, the entry is dropped
exactly when its classified schema is not a member of the effective set
`schemas ++ schemasNodata ++ ["pg_catalog"]` — which is empty when both
configured sets are empty, so in that case every such entry is dropped
rather than passed. -/
theorem c1_schema_membership (cfg : Config) (splitted : List (String × String))
    (trig : TrigMap) (line a b c d : String)
    (hb : (pystrip line == "") = false)
    (hr : recognizedKind line = true)
    (hl : ¬ (pysplit line).length < 7)
    (ha : (pysplit line).getD 3 "" = a)
    (hbtok : (pysplit line).getD 4 "" = b)
    (hctok : (pysplit line).getD 5 "" = c)
    (hdtok : (pysplit line).getD 6 "" = d)
    (h1 : rule_acl (effectiveSchemas cfg.schemas cfg.schemas_nodata) a b c = false)
    (h3 : rule_trigger (effectiveSchemas cfg.schemas cfg.schemas_nodata) trig a b c = false)
    (h4 : rule_nodata cfg a b (classify a b c d).1 = false)
    (h5 : rule_tables splitted a b (classify a b c d).1 (classify a b c d).2 = false)
    (h6 : rule_regex cfg a b (classify a b c d).1 (classify a b c d).2 = false) :
    processLine cfg splitted (effectiveSchemas cfg.schemas cfg.schemas_nodata) trig line =
      if (effectiveSchemas cfg.schemas cfg.schemas_nodata).contains (classify a b c d).1
      then line ++ "\n" else ";" ++ line ++ "\n" := by
  simp only [processLine, filter_out_line, hb, hr, hl, ha, hbtok, hctok, hdtok,
    h1, h3, h4, h5, h6, Bool.false_eq_true, if_false, if_true, Bool.false_or,
    Bool.or_false]
  cases hX : (effectiveSchemas cfg.schemas cfg.schemas_nodata).contains (classify a b c d).1 <;>
    simp [hX]

/-- Witness for `c1_schema_membership`: with `schemas = ["public"]` the TABLE
entry classified with schema "finance" is dropped. -/
theorem c1_witness :
    processLine ⟨["public"], [], []⟩ [] (effectiveSchemas ["public"] []) []
      "20; 0 0 TABLE finance t1 owner" = ";20; 0 0 TABLE finance t1 owner\n" := by
  rw [c1_schema_membership ⟨["public"], [], []⟩ [] [] "20; 0 0 TABLE finance t1 owner"
    "TABLE" "finance" "t1" "owner" rfl rfl (by decide) rfl rfl rfl rfl rfl rfl rfl rfl rfl]
  decide

/-- Claim C2, counterexample: a trigger in schema "public" whose dependency
list contains "pg_catalog.foo", with `schemas = ["public"]`, should be
dropped by the claim (the qualifier "pg_catalog" is not in `schemas`), but
the code keeps it: the membership test runs against the aliased effective
set, which contains "pg_catalog". -/
theorem c2_counterexample :
    (processLine ⟨["public"], [], []⟩ [] (effectiveSchemas ["public"] [])
        [("public", [("t1", ["pg_catalog.foo"])])] "1; 2 3 TRIGGER public t1 owner" =
      "1; 2 3 TRIGGER public t1 owner\n") ∧
    "1; 2 3 TRIGGER public t1 owner\n" ≠ ";1; 2 3 TRIGGER public t1 owner\n" :=
  ⟨rfl, by decide⟩

/-- Claim C2 as amended: a non-blank TRIGGER entry with at least seven
tokens whose (schema-token, trigger-token) pair is in the Dependency Map,
and whose classified schema passed the membership rule, is dropped exactly
when some referenced procedure's schema qualifier is not in the effective
set `schemas ++ schemasNodata ++ ["pg_catalog"]` (not the bare `schemas`:
the code's membership test reads the mutated alias). -/
theorem c2_trigger_dependency (cfg : Config) (splitted : List (String × String))
    (trig : TrigMap) (line b c d : String) (procs : List String)
    (hb : (pystrip line == "") = false)
    (hr : recognizedKind line = true)
    (hl : ¬ (pysplit line).length < 7)
    (ha : (pysplit line).getD 3 "" = "TRIGGER")
    (hbtok : (pysplit line).getD 4 "" = b)
    (hctok : (pysplit line).getD 5 "" = c)
    (hdtok : (pysplit line).getD 6 "" = d)
    (hlook : (trig.lookup b).bind (fun m => m.lookup c) = some procs)
    (hkeep : (effectiveSchemas cfg.schemas cfg.schemas_nodata).contains
      (classify "TRIGGER" b c d).1 = true) :
    processLine cfg splitted (effectiveSchemas cfg.schemas cfg.schemas_nodata) trig line =
      if procs.any (fun f =>
           !((effectiveSchemas cfg.schemas cfg.schemas_nodata).contains (schemaPart f)))
      then ";" ++ line ++ "\n" else line ++ "\n" := by
  simp only [processLine, filter_out_line, hb, hr, hl, ha, hbtok, hctok, hdtok,
    Bool.false_eq_true, if_false]
  simp only [rule_acl, rule_trigger, rule_nodata, rule_tables, rule_regex, hlook, hkeep]
  cases hA : procs.any (fun f =>
      !((effectiveSchemas cfg.schemas cfg.schemas_nodata).contains (schemaPart f))) <;>
    simp [hA]

/-- Witness for `c2_trigger_dependency`: a trigger of schema "public" whose
procedure list contains "other.proc" is dropped when
`schemas = ["public"]`. -/
theorem c2_witness :
    processLine ⟨["public"], [], []⟩ [] (effectiveSchemas ["public"] [])
      [("public", [("t1", ["other.proc"])])] "1; 2 3 TRIGGER public t1 owner" =
      ";1; 2 3 TRIGGER public t1 owner\n" := by
  rw [c2_trigger_dependency ⟨["public"], [], []⟩ [] [("public", [("t1", ["other.proc"])])]
    "1; 2 3 TRIGGER public t1 owner" "public" "t1" "owner" ["other.proc"]
    rfl rfl (by decide) rfl rfl rfl rfl rfl rfl]
  decide

/-- Claim C3, counterexample: filtering with empty `schemas`, empty
`schemasNodata`, empty `excludeTables` and empty `excludeTableRegexes` does
not reproduce the input: the SCHEMA entry for `pgq` is commented out, so the
output differs from the input text. -/
theorem c3_counterexample :
    (get_catalog_text ⟨[], [], []⟩ [] [] "1; 2 3 SCHEMA - pgq postgres" =
      ";1; 2 3 SCHEMA - pgq postgres\n") ∧
    ";1; 2 3 SCHEMA - pgq postgres\n" ≠ "1; 2 3 SCHEMA - pgq postgres" :=
  ⟨rfl, by decide⟩

/-- Claim C3 as amended: with all four filter inputs empty, the effective
schema set is empty, so every non-blank recognized line with at least seven
whitespace tokens is commented out, and every other non-blank line passes
unchanged; the output therefore equals the input only for inputs containing
no such line (and no blank lines, which are removed). -/
theorem c3_empty_config (trig : TrigMap) (line : String)
    (hb : (pystrip line == "") = false) :
    processLine ⟨[], [], []⟩ [] (effectiveSchemas [] []) trig line =
      if recognizedKind line = true ∧ 7 ≤ (pysplit line).length
      then ";" ++ line ++ "\n" else line ++ "\n" := by
  cases hr : recognizedKind line with
  | false => simp [processLine, filter_out_line, hb, hr]
  | true =>
    by_cases hl : (pysplit line).length < 7
    · have hq : ¬ 7 ≤ (pysplit line).length := by omega
      simp [processLine, filter_out_line, hb, hr, hl, hq]
    · have hq : 7 ≤ (pysplit line).length := by omega
      simp [processLine, filter_out_line, effectiveSchemas, hb, hr, hl, hq]

/-- Witness for `c3_empty_config`: with the empty configuration the SEQUENCE
entry for schema "londiste" is commented out, not passed through. -/
theorem c3_witness :
    processLine ⟨[], [], []⟩ [] (effectiveSchemas [] []) []
      "3380; 1259 122980 SEQUENCE londiste provider_seq_nr_seq payment" =
      ";3380; 1259 122980 SEQUENCE londiste provider_seq_nr_seq payment\n" := by
  rw [c3_empty_config [] "3380; 1259 122980 SEQUENCE londiste provider_seq_nr_seq payment" rfl]
  decide

/-- Claim C4 (code_bug): the rewriter never reaches the claimed
trailing-terminator trim.  `get_catalog` chops the buffer with
`catalog.seek(-1, os.SEEK_CUR)`, but `io.StringIO` rejects nonzero
cur-relative seeks, so every call raises `OSError` instead of returning the
rewritten catalog — here evaluated on the spec's own example TOC line. -/
theorem c4_seek_crash :
    get_catalog ⟨["jdb"], [], []⟩ [] ""
      "6236; 2620 15995620 TRIGGER jdb www_to_reporting_logger webadmin" =
      Except.error "Can't do nonzero cur-relative seeks" :=
  rfl

/-- Claim C5 (code_bug): one call to `get_catalog` does not leave the
Filter Configuration unchanged.  With `schemas = ["public"]` and empty
`schemas_nodata`, the in-place mutation through the `md_schemas` alias
leaves `self.schemas = ["public", "pg_catalog"]` after the call, which
differs from the configured `["public"]`. -/
theorem c5_config_mutated :
    (get_catalog_schemas_after ⟨["public"], [], []⟩ = ["public", "pg_catalog"]) ∧
    ["public", "pg_catalog"] ≠ ["public"] :=
  ⟨rfl, by decide⟩

/-- Claim C6, counterexample: a seven-token COMMENT entry that does not match
the pattern "COMMENT - SCHEMA name" is claimed to be kept unchanged for every
configuration; with `schemas = ["public"]` the code classifies it with the
empty-string schema and comments it out. -/
theorem c6_counterexample :
    (get_catalog_text ⟨["public"], [], []⟩ [] [] "11; 0 0 COMMENT - FUNCTION f7" =
      ";11; 0 0 COMMENT - FUNCTION f7\n") ∧
    ";11; 0 0 COMMENT - FUNCTION f7\n" ≠ "11; 0 0 COMMENT - FUNCTION f7\n" :=
  ⟨rfl, by decide⟩

/-- Claim C6 as amended: a non-blank COMMENT entry with at least seven
whitespace tokens takes schema = 4th unpacked token exactly when the tokens
match "COMMENT - SCHEMA name", and the empty string otherwise; either way
the schema-membership rule still applies, so a non-matching COMMENT entry is
dropped whenever the empty string is not in the effective schema set (in
particular for every configuration built from ordinary schema names), not
kept unchanged. -/
theorem c6_comment_rule (cfg : Config) (splitted : List (String × String))
    (trig : TrigMap) (line b c d : String)
    (hb : (pystrip line == "") = false)
    (hr : recognizedKind line = true)
    (hl : ¬ (pysplit line).length < 7)
    (ha : (pysplit line).getD 3 "" = "COMMENT")
    (hbtok : (pysplit line).getD 4 "" = b)
    (hctok : (pysplit line).getD 5 "" = c)
    (hdtok : (pysplit line).getD 6 "" = d) :
    processLine cfg splitted (effectiveSchemas cfg.schemas cfg.schemas_nodata) trig line =
      if (effectiveSchemas cfg.schemas cfg.schemas_nodata).contains
           (if b == "-" && c == "SCHEMA" then d else "")
      then line ++ "\n" else ";" ++ line ++ "\n" := by
  simp only [processLine, filter_out_line, hb, hr, hl, ha, hbtok, hctok, hdtok,
    Bool.false_eq_true, if_false]
  simp only [classify, rule_acl, rule_trigger, rule_nodata, rule_tables, rule_regex]
  cases hX : (effectiveSchemas cfg.schemas cfg.schemas_nodata).contains
      (if b == "-" && c == "SCHEMA" then d else "") <;>
    simp at hX <;> simp [hX]

/-- Witness for `c6_comment_rule`: a schema comment entry
"COMMENT - SCHEMA pgq" is kept when "pgq" is in `schemas`. -/
theorem c6_witness :
    processLine ⟨["pgq"], [], []⟩ [] (effectiveSchemas ["pgq"] []) []
      "12; 0 0 COMMENT - SCHEMA pgq postgres" =
      "12; 0 0 COMMENT - SCHEMA pgq postgres\n" := by
  rw [c6_comment_rule ⟨["pgq"], [], []⟩ [] [] "12; 0 0 COMMENT - SCHEMA pgq postgres"
    "-" "SCHEMA" "pgq" rfl rfl (by decide) rfl rfl rfl rfl]
  decide

/-- Claim C7 (confirmed): on a line invoking a procedure while a trigger is
active (and triggering none of the other line patterns), the extracted
procedure name is qualified, when it lacks a schema qualifier, with the
scan's `current_schema` — the trigger's schema context — regardless of the
contents of the `triggers_funcs` cache, and the qualified name is appended
at the end of the active trigger's procedure list only when not already
present; moreover a "returns trigger" line populates the
function-to-declaring-schema cache. -/
theorem c7_procedure_qualification :
    (∀ (st : TrigState) (t line : String)
       (m : List (String × List String)) (procs : List String),
       containsSub line "SET search_path = " = false →
       containsSub line "CREATE TRIGGER" = false →
       containsSub line "RETURNS \"trigger\"" = false →
       containsSub line "EXECUTE PROCEDURE" = true →
       st.current_trigger = some t →
       st.triggers.lookup st.current_schema = some m →
       m.lookup t = some procs →
       trig_step st line =
         Except.ok { st with
           triggers := setA st.triggers st.current_schema (setA m t
             (if procs.contains (if containsSub (extractProcName line) "." then
                  extractProcName line
                else st.current_schema ++ "." ++ extractProcName line) then procs
              else procs ++ [if containsSub (extractProcName line) "." then
                  extractProcName line
                else st.current_schema ++ "." ++ extractProcName line])),
           current_trigger := if containsSub line ";" then none else some t }) ∧
    (∀ (st : TrigState) (line tok : String),
       containsSub line "SET search_path = " = false →
       containsSub line "CREATE TRIGGER" = false →
       containsSub line "RETURNS \"trigger\"" = true →
       (pysplit line).get? 2 = some tok →
       st.current_trigger = none →
       trig_step st line =
         Except.ok { st with
           triggers_funcs := setA st.triggers_funcs (stripParens tok) st.current_schema }) := by
  constructor
  · intro st t line m procs h1 h2 h3 h4 h5 h6 h7
    rcases st with ⟨tr, tf, cs, ct⟩
    simp only [TrigState.current_trigger] at h5
    simp only [TrigState.triggers, TrigState.current_schema] at h6
    subst h5
    simp only [trig_step, h1, h2, h3, h4, h6, h7, Bool.false_eq_true, if_false, if_true]
    cases hsc : containsSub line ";" <;> simp

  · intro st line tok h1 h2 h3 h4 h5
    rcases st with ⟨tr, tf, cs, ct⟩
    simp only [TrigState.current_trigger] at h5
    subst h5
    simp only [trig_step, h1, h2, h3, h4, Bool.false_eq_true, if_false, if_true]

/-- Witness for `c7_procedure_qualification`: the unqualified procedure
"logtriga" invoked while trigger "t1" is active in schema "public" is
recorded as "public.logtriga", and a "returns trigger" function line adds
its name to the cache under the current schema. -/
theorem c7_witness :
    (trig_step ⟨[("public", [("t1", [])])], [], "public", some "t1"⟩
        "    EXECUTE PROCEDURE logtriga('x');" =
      Except.ok ⟨[("public", [("t1", ["public.logtriga"])])], [], "public", none⟩) ∧
    (trig_step ⟨[], [("f", "s")], "myschema", none⟩
        "CREATE FUNCTION partition_board_log() RETURNS \"trigger\"" =
      Except.ok ⟨[], [("f", "s"), ("partition_board_log", "myschema")], "myschema", none⟩) := by
  constructor
  · exact c7_procedure_qualification.1 ⟨[("public", [("t1", [])])], [], "public", some "t1"⟩
      "t1" "    EXECUTE PROCEDURE logtriga('x');" [("t1", [])] [] rfl rfl rfl rfl rfl rfl rfl
  · exact c7_procedure_qualification.2 ⟨[], [("f", "s")], "myschema", none⟩
      "CREATE FUNCTION partition_board_log() RETURNS \"trigger\""
      "partition_board_log()" rfl rfl rfl rfl rfl

/-- Claim C8, counterexample: a blank input line matches no kind marker, yet
it is not reproduced in the output — the loop skips whitespace-only lines —
so the output of filtering "x\n\ny" is "x\ny\n", not the input text that the
claim (byte-for-byte reproduction in original position) would force. -/
theorem c8_counterexample :
    (get_catalog_text ⟨[], [], []⟩ [] [] "x\n\ny" = "x\ny\n") ∧
    "x\ny\n" ≠ "x\n\ny" :=
  ⟨rfl, by decide⟩

/-- Claim C8 as amended: for every configuration, every non-blank input line
in which none of the sixteen kind-marker substrings occurs is reproduced
byte-for-byte as one output line, never prefixed with the comment marker
(blank lines, by contrast, are removed). -/
theorem c8_verbatim (cfg : Config) (splitted : List (String × String))
    (eff : List String) (trig : TrigMap) (line : String)
    (hb : (pystrip line == "") = false)
    (hr : recognizedKind line = false) :
    processLine cfg splitted eff trig line = line ++ "\n" := by
  simp [processLine, filter_out_line, hb, hr]

/-- Witness for `c8_verbatim` at the concrete unrecognized line
"hello world". -/
theorem c8_witness :
    processLine ⟨[], [], []⟩ [] [] [] "hello world" = "hello world" ++ "\n" :=
  c8_verbatim ⟨[], [], []⟩ [] [] [] "hello world" rfl rfl

/-- Claim C9 (confirmed): a non-blank line that matches a recognized kind
marker but has fewer than the seven whitespace tokens the unpack
`line.split()[3:7]` needs never fails the run — the `ValueError` handler
leaves the entry unclassified and the line is kept unchanged, never
commented out, for every configuration. -/
theorem c9_malformed_kept (cfg : Config) (splitted : List (String × String))
    (eff : List String) (trig : TrigMap) (line : String)
    (hb : (pystrip line == "") = false)
    (hr : recognizedKind line = true)
    (hl : (pysplit line).length < 7) :
    processLine cfg splitted eff trig line = line ++ "\n" := by
  simp [processLine, filter_out_line, hb, hr, hl]

/-- Witness for `c9_malformed_kept` at the concrete five-token TABLE line
"1; 2 3 TABLE foo". -/
theorem c9_witness :
    processLine ⟨[], [], []⟩ [] [] [] "1; 2 3 TABLE foo" = "1; 2 3 TABLE foo" ++ "\n" :=
  c9_malformed_kept ⟨[], [], []⟩ [] [] [] "1; 2 3 TABLE foo" rfl rfl (by decide)

/-- Claim C10 (code_bug): `get_trigger_funcs` does not succeed on every
schema-dump text.  On a text whose `CREATE TRIGGER` line appears before any
`search_path` directive, the lookup `triggers[current_schema]` raises
`KeyError: 'public'` instead of registering the trigger under the default
schema "public" as the claim states. -/
theorem c10_keyerror :
    get_trigger_funcs
      "CREATE TRIGGER logger BEFORE INSERT ON t1 FOR EACH ROW EXECUTE PROCEDURE f();" =
      Except.error "KeyError: public" :=
  rfl

end PGTools
